import Mathlib

/-!
Shallow embedding of `Samples/AzureIoT/common/main.c` (Azure Sphere AzureIoT
sample): an event-driven controller owning connection status, the
telemetry-upload-enabled flag, and a simulated temperature.

Each C handler becomes a pure function from the current state and its
environment-provided inputs (cloud send results, the `rand()` value, the
timestamp, the timer-consume result) to the next state paired with the
observable outputs it emits (outbound cloud calls, indicator updates,
warning logs).  A trace layer (`step`, `runWithOutputs`, `run`) folds
handler invocations over event lists for the sequence claims.
-/

namespace AzureIoT

/-- `Cloud_Result` from `cloud.h`; the three values are those handled by
`CloudResultToString` in `main.c`. -/
inductive Cloud_Result where
  | ok
  | noNetwork
  | otherFailure
deriving DecidableEq, Repr

/-- Modelled from the spec: `exitcodes.h` is not in the sources; the spec
requires a success value and a distinct failure kind per cause.  Only the
codes `main.c` itself writes are named; `other` covers codes reported by
the cloud/UI components through the exit-code callback. -/
inductive ExitCode where
  | success
  | termHandlerSigTerm
  | telemetryTimerConsume
  | mainEventLoopFail
  | other (n : Nat)
deriving DecidableEq, Repr

/-- The two buttons delivered by `user_interface.h` and handled in
`ButtonPressedCallbackHandler`. -/
inductive UserInterface_Button where
  | a
  | b
deriving DecidableEq, Repr

/-- One outbound call to the cloud layer, as invoked from `main.c`.
`float` temperatures are embedded as rationals. -/
inductive CloudCall where
  | sendTelemetryUploadEnabledChangedEvent (enabled : Bool)
  | sendThermometerMovedEvent (timestamp : Int)
  | sendDeviceDetails (serial : String)
  | sendTelemetry (temperature : ℚ) (timestamp : Int)
deriving DecidableEq, Repr

/-- Observable outputs of one handler invocation: outbound cloud calls,
`UserInterface_SetStatus` indicator updates, and warning-level log lines. -/
structure Outputs where
  cloudCalls : List CloudCall
  uiUpdates : List Bool
  warnings : Nat
deriving DecidableEq, Repr

def noOutputs : Outputs := { cloudCalls := [], uiUpdates := [], warnings := 0 }

/-- The mutable globals of `main.c` (`exitCode`, `isConnected`,
`telemetryUploadEnabled`), the static `telemetry.temperature` of
`TelemetryTimerCallbackHandler`, and the last indicator value pushed via
`UserInterface_SetStatus`. -/
structure AppState where
  exitCode : ExitCode
  isConnected : Bool
  telemetryUploadEnabled : Bool
  temperature : ℚ
  uiStatus : Option Bool
deriving DecidableEq, Repr

/-- `static const char *serialNumber = "TEMPMON-01234";` -/
def serialNumber : String := "TEMPMON-01234"

/-- State at entry to the main loop: `exitCode = ExitCode_Success`,
`isConnected = false`, `telemetryUploadEnabled = false`, the static
temperature initialised to `50.f`, and the indicator set to the initial
flag by `InitPeripheralsAndHandlers` (line 284). -/
def initialState : AppState :=
  { exitCode := ExitCode.success
    isConnected := false
    telemetryUploadEnabled := false
    temperature := 50
    uiStatus := some false }

/-- `CloudResultToString` in `main.c`. -/
def CloudResultToString : Cloud_Result → String
  | Cloud_Result.ok => "OK"
  | Cloud_Result.noNetwork => "No network connection available"
  | Cloud_Result.otherFailure => "Other failure"

/-- The `if (result != Cloud_Result_OK) Log_Debug("WARNING: ...")` pattern
shared by every send site in `main.c`: one warning when the send failed. -/
def warnIfFailed (result : Cloud_Result) : Nat :=
  if result = Cloud_Result.ok then 0 else 1

/-- `SetThermometerTelemetryUploadEnabled`: store the flag, push the
indicator, then attempt the outbound enabled-changed event; a failed send
is only logged. -/
def SetThermometerTelemetryUploadEnabled (s : AppState) (uploadEnabled : Bool)
    (result : Cloud_Result) : AppState × Outputs :=
  ({ s with telemetryUploadEnabled := uploadEnabled, uiStatus := some uploadEnabled },
   { cloudCalls := [CloudCall.sendTelemetryUploadEnabledChangedEvent uploadEnabled]
     uiUpdates := [uploadEnabled]
     warnings := warnIfFailed result })

/-- `DeviceMoved`: send the moved event with the current time; a failed
send is only logged. -/
def DeviceMoved (s : AppState) (now : Int) (result : Cloud_Result) :
    AppState × Outputs :=
  (s, { cloudCalls := [CloudCall.sendThermometerMovedEvent now]
        uiUpdates := []
        warnings := warnIfFailed result })

/-- `ButtonPressedCallbackHandler`: button A toggles the upload flag via
`SetThermometerTelemetryUploadEnabled`; button B reports a move. -/
def ButtonPressedCallbackHandler (s : AppState) (button : UserInterface_Button)
    (now : Int) (result : Cloud_Result) : AppState × Outputs :=
  match button with
  | UserInterface_Button.a =>
      SetThermometerTelemetryUploadEnabled s (!s.telemetryUploadEnabled) result
  | UserInterface_Button.b => DeviceMoved s now result

/-- `CloudTelemetryUploadEnabledChangedCallbackHandler`: a remote property
change routes through the same mutation path as the button. -/
def CloudTelemetryUploadEnabledChangedCallbackHandler (s : AppState)
    (uploadEnabled : Bool) (result : Cloud_Result) : AppState × Outputs :=
  SetThermometerTelemetryUploadEnabled s uploadEnabled result

/-- `DisplayAlertCallbackHandler`: logs the alert, touches no state. -/
def DisplayAlertCallbackHandler (s : AppState) (_alertMessage : String) :
    AppState × Outputs :=
  (s, noOutputs)

/-- `ConnectionChangedCallbackHandler`: record the status; when connected,
send the device details (serial number); a failed send is only logged. -/
def ConnectionChangedCallbackHandler (s : AppState) (connected : Bool)
    (result : Cloud_Result) : AppState × Outputs :=
  let s' := { s with isConnected := connected }
  if s'.isConnected then
    (s', { cloudCalls := [CloudCall.sendDeviceDetails serialNumber]
           uiUpdates := []
           warnings := warnIfFailed result })
  else
    (s', noOutputs)

/-- `TerminationHandler`: the SIGTERM handler writes only the exit code. -/
def TerminationHandler (s : AppState) : AppState :=
  { s with exitCode := ExitCode.termHandlerSigTerm }

/-- `ExitCodeCallbackHandler`: the fatal-condition callback handed to the
cloud and UI components; unconditionally stores the reported code. -/
def ExitCodeCallbackHandler (s : AppState) (ec : ExitCode) : AppState :=
  { s with exitCode := ec }

/-- `((float)(rand() % 41)) / 20.0f - 1.0f` with the float arithmetic
embedded over ℚ (all intermediate values are small and the bound is
rounding-stable). -/
def simDelta (randVal : Nat) : ℚ := ((randVal % 41 : Nat) : ℚ) / 20 - 1

/-- `TelemetryTimerCallbackHandler`: a failed timer consume is fatal;
otherwise, when connected and upload is enabled, perturb the temperature
and attempt the telemetry send (failure only logged); when connected with
upload disabled, or disconnected, do nothing outbound. -/
def TelemetryTimerCallbackHandler (s : AppState) (consumeResult : Int)
    (randVal : Nat) (now : Int) (result : Cloud_Result) : AppState × Outputs :=
  if consumeResult ≠ 0 then
    ({ s with exitCode := ExitCode.telemetryTimerConsume }, noOutputs)
  else if s.isConnected then
    if s.telemetryUploadEnabled then
      let temperature := s.temperature + simDelta randVal
      ({ s with temperature := temperature },
       { cloudCalls := [CloudCall.sendTelemetry temperature now]
         uiUpdates := []
         warnings := warnIfFailed result })
    else
      (s, noOutputs)
  else
    (s, noOutputs)

/-- One inbound event, carrying the environment-chosen inputs its handler
consumes. -/
inductive Event where
  | timerTick (consumeResult : Int) (randVal : Nat) (now : Int) (result : Cloud_Result)
  | buttonPress (button : UserInterface_Button) (now : Int) (result : Cloud_Result)
  | propertyChanged (uploadEnabled : Bool) (result : Cloud_Result)
  | connChanged (connected : Bool) (result : Cloud_Result)
  | commandInvoked (msg : String)
  | fatal (ec : ExitCode)
  | sigTerm
deriving DecidableEq, Repr

/-- Dispatch one event to its handler. -/
def step (s : AppState) : Event → AppState × Outputs
  | Event.timerTick c r n res => TelemetryTimerCallbackHandler s c r n res
  | Event.buttonPress btn n res => ButtonPressedCallbackHandler s btn n res
  | Event.propertyChanged v res => CloudTelemetryUploadEnabledChangedCallbackHandler s v res
  | Event.connChanged c res => ConnectionChangedCallbackHandler s c res
  | Event.commandInvoked m => DisplayAlertCallbackHandler s m
  | Event.fatal ec => (ExitCodeCallbackHandler s ec, noOutputs)
  | Event.sigTerm => (TerminationHandler s, noOutputs)

/-- Fold a list of events through `step`, collecting each invocation's
outputs. -/
def runWithOutputs (s : AppState) : List Event → AppState × List Outputs
  | [] => (s, [])
  | e :: es =>
      let p := step s e
      let q := runWithOutputs p.1 es
      (q.1, p.2 :: q.2)

/-- Final state after a list of events. -/
def run (s : AppState) (es : List Event) : AppState := (runWithOutputs s es).1

lemma run_nil (s : AppState) : run s [] = s := rfl

lemma run_cons (s : AppState) (e : Event) (es : List Event) :
    run s (e :: es) = run (step s e).1 es := rfl

/-- C1: every change to `telemetry_upload_enabled` — via the remote
property handler or via button A — synchronously stores the new value,
pushes exactly one indicator update, and attempts exactly one outbound
enabled-changed notification; this holds for every send result, so a
failed send rolls back neither the flag nor the indicator. -/
theorem upload_enabled_change_synchronous_effects (s : AppState) (v : Bool)
    (now : Int) (result : Cloud_Result) :
    ((CloudTelemetryUploadEnabledChangedCallbackHandler s v result).1.telemetryUploadEnabled = v
      ∧ (CloudTelemetryUploadEnabledChangedCallbackHandler s v result).1.uiStatus = some v
      ∧ (CloudTelemetryUploadEnabledChangedCallbackHandler s v result).2.uiUpdates = [v]
      ∧ (CloudTelemetryUploadEnabledChangedCallbackHandler s v result).2.cloudCalls
          = [CloudCall.sendTelemetryUploadEnabledChangedEvent v])
    ∧ ((ButtonPressedCallbackHandler s UserInterface_Button.a now result).1.telemetryUploadEnabled
          = !s.telemetryUploadEnabled
      ∧ (ButtonPressedCallbackHandler s UserInterface_Button.a now result).1.uiStatus
          = some (!s.telemetryUploadEnabled)
      ∧ (ButtonPressedCallbackHandler s UserInterface_Button.a now result).2.uiUpdates
          = [!s.telemetryUploadEnabled]
      ∧ (ButtonPressedCallbackHandler s UserInterface_Button.a now result).2.cloudCalls
          = [CloudCall.sendTelemetryUploadEnabledChangedEvent (!s.telemetryUploadEnabled)]) :=
  ⟨⟨rfl, rfl, rfl, rfl⟩, rfl, rfl, rfl, rfl⟩

/-- C2 counterexample: a remote-origin property change does send the
property echo back to the remote side — `CloudTelemetryUploadEnabledChangedCallbackHandler`
routes through `SetThermometerTelemetryUploadEnabled`, which always emits
the enabled-changed event, so the echo is not skipped for the remote
origin. -/
theorem remote_property_change_sends_echo :
    CloudCall.sendTelemetryUploadEnabledChangedEvent true
      ∈ (CloudTelemetryUploadEnabledChangedCallbackHandler initialState true
          Cloud_Result.ok).2.cloudCalls := by
  simp [CloudTelemetryUploadEnabledChangedCallbackHandler,
        SetThermometerTelemetryUploadEnabled]

/-- C2 (amended): when a remote property change and a button-A press
produce the same target boolean, they are the same transition — identical
resulting state and identical outputs — and both emit the outbound echo
(the remote-origin change does not skip it). -/
theorem button_and_remote_same_target_same_transition (s : AppState) (v : Bool)
    (now : Int) (result : Cloud_Result) (h : v = !s.telemetryUploadEnabled) :
    CloudTelemetryUploadEnabledChangedCallbackHandler s v result
        = ButtonPressedCallbackHandler s UserInterface_Button.a now result
      ∧ (CloudTelemetryUploadEnabledChangedCallbackHandler s v result).2.cloudCalls
        = [CloudCall.sendTelemetryUploadEnabledChangedEvent v] := by
  subst h
  exact ⟨rfl, rfl⟩

theorem button_and_remote_same_target_same_transition_witness :
    true = !initialState.telemetryUploadEnabled
      ∧ (CloudTelemetryUploadEnabledChangedCallbackHandler initialState true Cloud_Result.ok
            = ButtonPressedCallbackHandler initialState UserInterface_Button.a 0 Cloud_Result.ok
        ∧ (CloudTelemetryUploadEnabledChangedCallbackHandler initialState true
              Cloud_Result.ok).2.cloudCalls
            = [CloudCall.sendTelemetryUploadEnabledChangedEvent true]) :=
  ⟨rfl, button_and_remote_same_target_same_transition initialState true 0 Cloud_Result.ok rfl⟩

/-- C4: a timer tick in a disconnected state makes no outbound call at
all, whatever the upload flag, the consume result, the random value and
the environment's send result. -/
theorem tick_disconnected_no_send (s : AppState) (c : Int) (r : Nat) (n : Int)
    (res : Cloud_Result) (h : s.isConnected = false) :
    (TelemetryTimerCallbackHandler s c r n res).2.cloudCalls = [] := by
  unfold TelemetryTimerCallbackHandler
  by_cases hc : c ≠ 0 <;> simp [hc, h, noOutputs]

theorem tick_disconnected_no_send_witness :
    initialState.isConnected = false
      ∧ (TelemetryTimerCallbackHandler { initialState with telemetryUploadEnabled := true }
            0 5 0 Cloud_Result.noNetwork).2.cloudCalls = [] :=
  ⟨rfl, tick_disconnected_no_send { initialState with telemetryUploadEnabled := true }
          0 5 0 Cloud_Result.noNetwork rfl⟩

/-- C6: `ConnectionChangedCallbackHandler true` always emits exactly one
`sendDeviceDetails` with the fixed serial number — also from an
already-connected state, and twice for two consecutive `true`
notifications — while `false` emits nothing outbound. -/
theorem connection_changed_device_details (s : AppState)
    (res res₁ res₂ : Cloud_Result) :
    (ConnectionChangedCallbackHandler s true res).2.cloudCalls
        = [CloudCall.sendDeviceDetails serialNumber]
      ∧ (ConnectionChangedCallbackHandler s true res).1.isConnected = true
      ∧ (ConnectionChangedCallbackHandler s false res).2.cloudCalls = []
      ∧ ((runWithOutputs s [Event.connChanged true res₁, Event.connChanged true res₂]).2.map
            fun o => o.cloudCalls)
        = [[CloudCall.sendDeviceDetails serialNumber],
           [CloudCall.sendDeviceDetails serialNumber]] :=
  ⟨rfl, rfl, rfl, rfl⟩

lemma step_exitCode_ne_success (s : AppState) (e : Event)
    (hs : s.exitCode ≠ ExitCode.success)
    (he : ∀ ec, e = Event.fatal ec → ec ≠ ExitCode.success) :
    (step s e).1.exitCode ≠ ExitCode.success := by
  cases e with
  | timerTick c r n res =>
      unfold step TelemetryTimerCallbackHandler
      by_cases hc : c ≠ 0
      · simp [hc]
      · by_cases hcon : s.isConnected <;> by_cases ht : s.telemetryUploadEnabled <;>
          simp [hc, hcon, ht, hs]
  | buttonPress btn n res => cases btn <;> exact hs
  | propertyChanged v res => exact hs
  | connChanged c res =>
      unfold step ConnectionChangedCallbackHandler
      by_cases hc : c = true <;> simp [hc, hs]
  | commandInvoked m => exact hs
  | fatal ec => exact he ec rfl
  | sigTerm => simp [step, TerminationHandler]

/-- C3: once `exitCode` holds a failure value, no later handler invocation
— the fatal-condition callback (reporting an unrecoverable condition,
hence a non-success code), the timer handler, or the signal handler —
clears it back to success. -/
theorem exitCode_failure_monotonic (es : List Event) : ∀ s : AppState,
    s.exitCode ≠ ExitCode.success →
    (∀ ec, Event.fatal ec ∈ es → ec ≠ ExitCode.success) →
    (run s es).exitCode ≠ ExitCode.success := by
  induction es with
  | nil => intro s hs _; exact hs
  | cons e es ih =>
      intro s hs he
      rw [run_cons]
      refine ih (step s e).1 (step_exitCode_ne_success s e hs ?_) ?_
      · intro ec h
        exact he ec (by rw [h]; exact List.mem_cons_self _ _)
      · intro ec h
        exact he ec (List.mem_cons_of_mem _ h)

theorem exitCode_failure_monotonic_witness :
    (TerminationHandler initialState).exitCode ≠ ExitCode.success
      ∧ (run (TerminationHandler initialState)
          [Event.timerTick 1 0 0 Cloud_Result.ok, Event.sigTerm,
           Event.fatal (ExitCode.other 7),
           Event.buttonPress UserInterface_Button.a 0 Cloud_Result.noNetwork]).exitCode
        ≠ ExitCode.success := by
  refine ⟨by simp [TerminationHandler], ?_⟩
  refine exitCode_failure_monotonic _ (TerminationHandler initialState)
    (by simp [TerminationHandler]) ?_
  intro ec h
  simp only [List.mem_cons, List.not_mem_nil, or_false] at h
  rcases h with h | h | h | h
  · exact Event.noConfusion h
  · exact Event.noConfusion h
  · injection h with h'
    subst h'
    simp
  · exact Event.noConfusion h

/-- The events of a sequence of button-A presses, one per
timestamp/send-result pair chosen by the environment. -/
def buttonATrace (ps : List (Int × Cloud_Result)) : List Event :=
  ps.map fun p => Event.buttonPress UserInterface_Button.a p.1 p.2

lemma run_buttonATrace_toggle (ps : List (Int × Cloud_Result)) : ∀ s : AppState,
    (run s (buttonATrace ps)).telemetryUploadEnabled
      = xor s.telemetryUploadEnabled (decide (ps.length % 2 = 1)) := by
  induction ps with
  | nil => intro s; simp [buttonATrace, run_nil]
  | cons p ps ih =>
      intro s
      have hflip : decide ((ps.length + 1) % 2 = 1) = !decide (ps.length % 2 = 1) := by
        by_cases h : ps.length % 2 = 1
        · simp [h]; omega
        · simp [h]; omega
      have hstep : run s (buttonATrace (p :: ps))
          = run (SetThermometerTelemetryUploadEnabled s (!s.telemetryUploadEnabled) p.2).1
              (buttonATrace ps) := rfl
      rw [hstep, ih]
      simp only [SetThermometerTelemetryUploadEnabled, List.length_cons, hflip]
      cases s.telemetryUploadEnabled <;> cases decide (ps.length % 2 = 1) <;> rfl

lemma runWithOutputs_buttonATrace_ui (ps : List (Int × Cloud_Result)) : ∀ s : AppState,
    ((runWithOutputs s (buttonATrace ps)).2.map fun o => o.uiUpdates.length)
      = List.replicate ps.length 1 := by
  induction ps with
  | nil => intro s; simp [buttonATrace, runWithOutputs]
  | cons p ps ih =>
      intro s
      have hstep : runWithOutputs s (buttonATrace (p :: ps))
          = ((runWithOutputs (SetThermometerTelemetryUploadEnabled s
                (!s.telemetryUploadEnabled) p.2).1 (buttonATrace ps)).1,
             (SetThermometerTelemetryUploadEnabled s (!s.telemetryUploadEnabled) p.2).2
               :: (runWithOutputs (SetThermometerTelemetryUploadEnabled s
                    (!s.telemetryUploadEnabled) p.2).1 (buttonATrace ps)).2) := rfl
      rw [hstep]
      simp only [List.map_cons, List.length_cons, List.replicate_succ, ih]
      rfl

/-- C5: from the initial state, after any sequence of `n` button-A presses
(whatever timestamps and send results the environment supplies),
`telemetry_upload_enabled` equals `n % 2 == 1`, and every press pushes the
indicator exactly once, synchronously within its own invocation. -/
theorem buttonA_parity_and_indicator (ps : List (Int × Cloud_Result)) :
    (run initialState (buttonATrace ps)).telemetryUploadEnabled
        = decide (ps.length % 2 = 1)
      ∧ ((runWithOutputs initialState (buttonATrace ps)).2.map fun o => o.uiUpdates.length)
        = List.replicate ps.length 1 := by
  refine ⟨?_, runWithOutputs_buttonATrace_ui ps initialState⟩
  rw [run_buttonATrace_toggle]
  simp [initialState]

/-- The resources acquired by `InitPeripheralsAndHandlers` and released by
`ClosePeripheralsAndHandlers`. -/
inductive Resource where
  | eventLoop
  | telemetryTimer
  | userInterface
  | sensorI2c
  | cloudChannel
  | connection
deriving DecidableEq, Repr

/-- Acquisition order on the successful path of
`InitPeripheralsAndHandlers`: event loop (line 264), telemetry timer
(271), user interface (277), I2C sensor (287), cloud channel (317, which
also receives the connection context). -/
def initAcquisitionOrder : List Resource :=
  [Resource.eventLoop, Resource.telemetryTimer, Resource.userInterface,
   Resource.sensorI2c, Resource.cloudChannel]

/-- `CloseFdAndPrintError`: a valid fd is always closed; a failed `close`
is only logged, so the release is attempted either way. -/
def CloseFdAndPrintError (fd : Int) : List Resource :=
  if fd ≥ 0 then [Resource.sensorI2c] else []

/-- `ClosePeripheralsAndHandlers`: the straight-line release sequence of
`main.c` lines 340-350 — timer, cloud, user interface, connection, event
loop, then the sensor fd.  `closeFailed` is the environment's choice of
which releases fail; the code never branches on it, so every release is
attempted regardless. -/
def ClosePeripheralsAndHandlers (i2cFd : Int) (_closeFailed : Resource → Bool) :
    List Resource :=
  [Resource.telemetryTimer, Resource.cloudChannel, Resource.userInterface,
   Resource.connection, Resource.eventLoop] ++ CloseFdAndPrintError i2cFd

/-- C7 counterexample: with a valid sensor fd and no release failures, the
release sequence is not the exact reverse of the acquisition order — the
sensor is acquired before the cloud channel yet released last. -/
theorem shutdown_not_exact_reverse_of_init :
    ClosePeripheralsAndHandlers 3 (fun _ => false) ≠ initAcquisitionOrder.reverse := by
  decide

/-- C7 (amended): the shutdown sequence releases the timer, then the cloud
channel, then the button/UI source, then the connection, then the dispatch
loop, then the sensor fd — the same list whatever releases fail (each
release is attempted even if an earlier one failed), but this order is not
the exact reverse of the acquisition order. -/
theorem shutdown_release_order (fd : Int) (closeFailed : Resource → Bool)
    (h : 0 ≤ fd) :
    ClosePeripheralsAndHandlers fd closeFailed
        = [Resource.telemetryTimer, Resource.cloudChannel, Resource.userInterface,
           Resource.connection, Resource.eventLoop, Resource.sensorI2c]
      ∧ ClosePeripheralsAndHandlers fd closeFailed ≠ initAcquisitionOrder.reverse := by
  have hrel : ClosePeripheralsAndHandlers fd closeFailed
      = [Resource.telemetryTimer, Resource.cloudChannel, Resource.userInterface,
         Resource.connection, Resource.eventLoop, Resource.sensorI2c] := by
    unfold ClosePeripheralsAndHandlers CloseFdAndPrintError
    simp [h]
  refine ⟨hrel, ?_⟩
  rw [hrel]
  decide

theorem shutdown_release_order_witness :
    (0 : Int) ≤ 3
      ∧ (ClosePeripheralsAndHandlers 3 (fun _ => true)
            = [Resource.telemetryTimer, Resource.cloudChannel, Resource.userInterface,
               Resource.connection, Resource.eventLoop, Resource.sensorI2c]
        ∧ ClosePeripheralsAndHandlers 3 (fun _ => true) ≠ initAcquisitionOrder.reverse) :=
  ⟨by decide, shutdown_release_order 3 (fun _ => true) (by decide)⟩

/-- C8: every outbound send site in `main.c` handles a failing result by
logging only.  For each of the four sites — the property echo in
`SetThermometerTelemetryUploadEnabled`, the device-moved event in
`DeviceMoved`, the device-details report in
`ConnectionChangedCallbackHandler`, and the telemetry send in
`TelemetryTimerCallbackHandler` — a failing result yields exactly the
state a successful send would have produced (exit code included), exactly
one send attempt (no retry within the dispatch), and one warning; and
after a failed telemetry send, the next tick in Connected × upload-enabled
still attempts exactly one send. -/
theorem send_failure_only_logged (s : AppState) (v : Bool) (r : Nat) (n : Int)
    (res : Cloud_Result) (r' : Nat) (n' : Int) (res' : Cloud_Result)
    (hc : s.isConnected = true) (ht : s.telemetryUploadEnabled = true)
    (hres : res ≠ Cloud_Result.ok) :
    ((SetThermometerTelemetryUploadEnabled s v res).1
        = (SetThermometerTelemetryUploadEnabled s v Cloud_Result.ok).1
      ∧ (SetThermometerTelemetryUploadEnabled s v res).1.exitCode = s.exitCode
      ∧ (SetThermometerTelemetryUploadEnabled s v res).2.cloudCalls.length = 1
      ∧ (SetThermometerTelemetryUploadEnabled s v res).2.warnings = 1)
    ∧ ((DeviceMoved s n res).1 = s
      ∧ (DeviceMoved s n res).2.cloudCalls.length = 1
      ∧ (DeviceMoved s n res).2.warnings = 1)
    ∧ ((ConnectionChangedCallbackHandler s true res).1
        = (ConnectionChangedCallbackHandler s true Cloud_Result.ok).1
      ∧ (ConnectionChangedCallbackHandler s true res).1.exitCode = s.exitCode
      ∧ (ConnectionChangedCallbackHandler s true res).2.cloudCalls.length = 1
      ∧ (ConnectionChangedCallbackHandler s true res).2.warnings = 1)
    ∧ ((TelemetryTimerCallbackHandler s 0 r n res).1.exitCode = s.exitCode
      ∧ (TelemetryTimerCallbackHandler s 0 r n res).1.isConnected = true
      ∧ (TelemetryTimerCallbackHandler s 0 r n res).1.telemetryUploadEnabled = true
      ∧ (TelemetryTimerCallbackHandler s 0 r n res).1
          = (TelemetryTimerCallbackHandler s 0 r n Cloud_Result.ok).1
      ∧ (TelemetryTimerCallbackHandler s 0 r n res).2.cloudCalls.length = 1
      ∧ (TelemetryTimerCallbackHandler s 0 r n res).2.warnings = 1
      ∧ (TelemetryTimerCallbackHandler (TelemetryTimerCallbackHandler s 0 r n res).1
            0 r' n' res').2.cloudCalls.length = 1) := by
  refine ⟨⟨rfl, rfl, rfl, by simp [SetThermometerTelemetryUploadEnabled, warnIfFailed, hres]⟩,
          ⟨rfl, rfl, by simp [DeviceMoved, warnIfFailed, hres]⟩,
          ⟨rfl, rfl, rfl, by simp [ConnectionChangedCallbackHandler, warnIfFailed, hres]⟩,
          ?_⟩
  unfold TelemetryTimerCallbackHandler
  simp [hc, ht, warnIfFailed, hres]

theorem send_failure_only_logged_witness :
    ({ initialState with isConnected := true, telemetryUploadEnabled := true }
        : AppState).isConnected = true
      ∧ ({ initialState with isConnected := true, telemetryUploadEnabled := true }
          : AppState).telemetryUploadEnabled = true
      ∧ Cloud_Result.noNetwork ≠ Cloud_Result.ok
      ∧ ((SetThermometerTelemetryUploadEnabled
              { initialState with isConnected := true, telemetryUploadEnabled := true }
              false Cloud_Result.noNetwork).1
            = (SetThermometerTelemetryUploadEnabled
                { initialState with isConnected := true, telemetryUploadEnabled := true }
                false Cloud_Result.ok).1
        ∧ (DeviceMoved
              { initialState with isConnected := true, telemetryUploadEnabled := true }
              0 Cloud_Result.noNetwork).1
            = { initialState with isConnected := true, telemetryUploadEnabled := true }
        ∧ (ConnectionChangedCallbackHandler
              { initialState with isConnected := true, telemetryUploadEnabled := true }
              true Cloud_Result.noNetwork).2.cloudCalls.length = 1
        ∧ (TelemetryTimerCallbackHandler
              { initialState with isConnected := true, telemetryUploadEnabled := true }
              0 12 0 Cloud_Result.noNetwork).1.exitCode
            = ({ initialState with isConnected := true, telemetryUploadEnabled := true }
                : AppState).exitCode
        ∧ (TelemetryTimerCallbackHandler
              { initialState with isConnected := true, telemetryUploadEnabled := true }
              0 12 0 Cloud_Result.noNetwork).2.cloudCalls.length = 1
        ∧ (TelemetryTimerCallbackHandler (TelemetryTimerCallbackHandler
              { initialState with isConnected := true, telemetryUploadEnabled := true }
              0 12 0 Cloud_Result.noNetwork).1
              0 30 1 Cloud_Result.ok).2.cloudCalls.length = 1) := by
  obtain ⟨⟨he1, he2, he3, he4⟩, ⟨hm1, hm2, hm3⟩, ⟨hd1, hd2, hd3, hd4⟩,
          ht1, ht2, ht3, ht4, ht5, ht6, ht7⟩ := send_failure_only_logged
    { initialState with isConnected := true, telemetryUploadEnabled := true }
    false 12 0 Cloud_Result.noNetwork 30 1 Cloud_Result.ok rfl rfl (by decide)
  exact ⟨rfl, rfl, by decide, he1, hm1, hd3, ht1, ht5, ht7⟩

lemma simDelta_ge_neg_one (r : Nat) : -1 ≤ simDelta r := by
  unfold simDelta
  have h0 : (0 : ℚ) ≤ ((r % 41 : Nat) : ℚ) := Nat.cast_nonneg _
  have h20 : (0 : ℚ) < 20 := by norm_num
  have := div_nonneg h0 (le_of_lt h20)
  linarith

lemma simDelta_le_one (r : Nat) : simDelta r ≤ 1 := by
  unfold simDelta
  have h40 : ((r % 41 : Nat) : ℚ) ≤ 40 := by
    have : r % 41 ≤ 40 := Nat.lt_succ_iff.mp (Nat.mod_lt r (by norm_num))
    exact_mod_cast this
  linarith

/-- C9: on a tick in Connected × upload-enabled, the perturbation added to
the temperature is `((rand % 41) / 20) - 1`, which lies in the closed
interval `[-1, 1]`, so the measurement sent is within ±1 of the previous
value. -/
theorem tick_measurement_within_one (s : AppState) (r : Nat) (n : Int)
    (res : Cloud_Result) (hc : s.isConnected = true)
    (ht : s.telemetryUploadEnabled = true) :
    (TelemetryTimerCallbackHandler s 0 r n res).2.cloudCalls
        = [CloudCall.sendTelemetry (s.temperature + simDelta r) n]
      ∧ -1 ≤ simDelta r ∧ simDelta r ≤ 1
      ∧ |(s.temperature + simDelta r) - s.temperature| ≤ 1 := by
  refine ⟨?_, simDelta_ge_neg_one r, simDelta_le_one r, ?_⟩
  · unfold TelemetryTimerCallbackHandler
    simp [hc, ht]
  · rw [add_sub_cancel_left]
    exact abs_le.mpr ⟨simDelta_ge_neg_one r, simDelta_le_one r⟩

theorem tick_measurement_within_one_witness :
    ({ initialState with isConnected := true, telemetryUploadEnabled := true }
        : AppState).isConnected = true
      ∧ ((TelemetryTimerCallbackHandler
            { initialState with isConnected := true, telemetryUploadEnabled := true }
            0 7 0 Cloud_Result.ok).2.cloudCalls
          = [CloudCall.sendTelemetry
              (({ initialState with isConnected := true, telemetryUploadEnabled := true }
                  : AppState).temperature + simDelta 7) 0]
        ∧ -1 ≤ simDelta 7 ∧ simDelta 7 ≤ 1) := by
  have h := tick_measurement_within_one
    { initialState with isConnected := true, telemetryUploadEnabled := true }
    7 0 Cloud_Result.ok rfl rfl
  exact ⟨rfl, h.1, h.2.1, h.2.2.1⟩

/-- C10: the temperature starts at 50 and is written only by the timer
handler, only when connected with upload enabled and the tick was
consumed; there it becomes `old + simDelta rand` for every send result —
the perturbed value is computed before the send and kept on failure.
Every other handler leaves it unchanged. -/
theorem temperature_frame (s : AppState) :
    initialState.temperature = 50
      ∧ (∀ btn n res, (ButtonPressedCallbackHandler s btn n res).1.temperature = s.temperature)
      ∧ (∀ v res, (CloudTelemetryUploadEnabledChangedCallbackHandler s v res).1.temperature
            = s.temperature)
      ∧ (∀ c res, (ConnectionChangedCallbackHandler s c res).1.temperature = s.temperature)
      ∧ (∀ m, (DisplayAlertCallbackHandler s m).1.temperature = s.temperature)
      ∧ (∀ ec, (ExitCodeCallbackHandler s ec).temperature = s.temperature)
      ∧ (TerminationHandler s).temperature = s.temperature
      ∧ (∀ c r n res, c ≠ 0 →
          (TelemetryTimerCallbackHandler s c r n res).1.temperature = s.temperature)
      ∧ (∀ r n res, s.isConnected = false ∨ s.telemetryUploadEnabled = false →
          (TelemetryTimerCallbackHandler s 0 r n res).1.temperature = s.temperature)
      ∧ (∀ r n res, s.isConnected = true → s.telemetryUploadEnabled = true →
          (TelemetryTimerCallbackHandler s 0 r n res).1.temperature
            = s.temperature + simDelta r) := by
  refine ⟨rfl, ?_, fun v res => rfl, ?_, fun m => rfl, fun ec => rfl, rfl, ?_, ?_, ?_⟩
  · intro btn n res
    cases btn <;> rfl
  · intro c res
    unfold ConnectionChangedCallbackHandler
    by_cases hc : c = true <;> simp [hc]
  · intro c r n res hc
    unfold TelemetryTimerCallbackHandler
    simp [hc]
  · intro r n res hne
    unfold TelemetryTimerCallbackHandler
    rcases hne with h | h
    · simp [h]
    · by_cases hcon : s.isConnected <;> simp [hcon, h]
  · intro r n res hc ht
    unfold TelemetryTimerCallbackHandler
    simp [hc, ht]

theorem temperature_frame_witness :
    (ButtonPressedCallbackHandler initialState UserInterface_Button.b 0
        Cloud_Result.ok).1.temperature = initialState.temperature
      ∧ (TelemetryTimerCallbackHandler initialState 0 4 0
          Cloud_Result.ok).1.temperature = initialState.temperature
      ∧ (TelemetryTimerCallbackHandler initialState 2 4 0
          Cloud_Result.ok).1.temperature = initialState.temperature
      ∧ (TelemetryTimerCallbackHandler
            { initialState with isConnected := true, telemetryUploadEnabled := true }
            0 4 0 Cloud_Result.noNetwork).1.temperature
        = ({ initialState with isConnected := true, telemetryUploadEnabled := true }
            : AppState).temperature + simDelta 4 := by
  have h0 := temperature_frame initialState
  have h1 := temperature_frame
    { initialState with isConnected := true, telemetryUploadEnabled := true }
  refine ⟨h0.2.1 UserInterface_Button.b 0 Cloud_Result.ok, ?_, ?_, ?_⟩
  · exact h0.2.2.2.2.2.2.2.2.1 4 0 Cloud_Result.ok (Or.inl rfl)
  · exact h0.2.2.2.2.2.2.2.1 2 4 0 Cloud_Result.ok (by decide)
  · exact h1.2.2.2.2.2.2.2.2.2 4 0 Cloud_Result.noNetwork rfl rfl

end AzureIoT
